import Mathlib

/-!
Verification development for a conversational data-analysis agent.

The system under study exposes a fixed set of inspection and transformation
operations over an in-memory table (a pandas `DataFrame`) to a language-model
planner, wrapping every outcome in a uniform `ToolResponse` envelope.

This file gives a shallow embedding of the table data model, the inspection
tools (`app/core/agents/tools/inspection_tools.py`), the transformation tools
(`app/core/agents/tools/transformation_tools.py`), the agent tool wrappers
(`app/core/agents/data_agent.py`) and the language-model client factory
(`app/core/llm/llm_factory.py`), and proves properties of the embedded code.

Modelling conventions:
* A table cell is a `Value`: a string, an exact rational standing for a
  finite Python number, `undef` standing for a non-finite floating-point
  result (an infinity), or `missing` standing for `NaN`/`None`.
* Python exceptions become an `Err` sum carried in `Except` / `Option`;
  `DataProcessingError` realises the error taxonomy kind `InvalidOperation`,
  `EmptyDataFrameError` realises `EmptyTable`, and `ColumnNotFoundError`
  realises `ColumnNotFound`.
* In-place mutation of the shared `DataFrame` object is made explicit: each
  transformation returns the post-call state of the caller-held object
  together with an optional error, so a failure that happens after a
  partial write is observable in the returned table.
-/

/-- A single quote character, used when assembling the exact message strings
the Python code builds with quoted f-string interpolations. -/
def pyq : String := String.singleton (Char.ofNat 39)

/-- A table cell value. `undef` stands for a non-finite floating-point result
(an infinity produced by division by zero); `missing` stands for `NaN`/`None`. -/
inductive Value where
  | str (s : String)
  | num (q : ℚ)
  | undef
  | missing
deriving DecidableEq, Repr

/-- A two-dimensional named-column ordered-row table: the shallow embedding of
a pandas `DataFrame`. Rows are aligned with `cols` by position. -/
structure DataFrame where
  cols : List String
  rows : List (List Value)
deriving DecidableEq, Repr

namespace DataFrame

/-- Well-formedness: every row has exactly one cell per column, and column
names are unique (the repository invariant on tables). -/
def WF (df : DataFrame) : Prop :=
  (∀ r ∈ df.rows, r.length = df.cols.length) ∧ df.cols.Nodup

/-- `df.empty` in pandas: true iff the frame has no rows or no columns. -/
def isEmptyB (df : DataFrame) : Bool :=
  df.rows.isEmpty || df.cols.isEmpty

/-- Position of a column name in the header, `none` when absent. -/
def colIdx (df : DataFrame) (name : String) : Option Nat :=
  df.cols.findIdx? (fun c => decide (c = name))

/-- Membership test `name in df.columns`. -/
def hasCol (df : DataFrame) (name : String) : Bool :=
  df.cols.contains name

/-- The cells of the column at position `j`, one per row. -/
def colCellsAt (df : DataFrame) (j : Nat) : List Value :=
  df.rows.map (fun r => r.getD j Value.missing)

/-- The cells of a named column, `none` when the column is absent. -/
def colCells? (df : DataFrame) (name : String) : Option (List Value) :=
  (df.colIdx name).map df.colCellsAt

/-- The cell in row `i` of the named column. -/
def cellAt (df : DataFrame) (i : Nat) (name : String) : Option Value :=
  (df.colCells? name).bind (fun cs => cs[i]?)

/-- In-place update of every cell of the column at position `j` by `f`
(the embedding of a masked column assignment such as `df.loc[mask, c] = v`). -/
def mapColAt (df : DataFrame) (j : Nat) (f : Value → Value) : DataFrame :=
  { cols := df.cols
    rows := df.rows.map (fun r => r.set j (f (r.getD j Value.missing))) }

/-- Column assignment `df[name] = vs`: overwrites the column in place when the
name exists, otherwise appends a new column on the right. `vs` must have one
value per row (pandas enforces this). -/
def setCol (df : DataFrame) (name : String) (vs : List Value) : DataFrame :=
  match df.colIdx name with
  | some j => { cols := df.cols, rows := df.rows.zipWith (fun r v => r.set j v) vs }
  | none => { cols := df.cols ++ [name], rows := df.rows.zipWith (fun r v => r ++ [v]) vs }

end DataFrame

/-- The typed error taxonomy of `app/core/agents/tools/exceptions.py`.
`dataProcessing` realises the spec kind `InvalidOperation`, `emptyDataFrame`
realises `EmptyTable`, `columnNotFound` realises `ColumnNotFound`. -/
inductive Err where
  | emptyDataFrame (operation : String)
  | dataProcessing (operation : String) (details : String)
  | columnNotFound (column_name : String) (available_columns : List String)
deriving DecidableEq, Repr

/-- `str(e)` for each exception class, mirroring the messages built in
`exceptions.py`. -/
def Err.toMessage : Err → String
  | .emptyDataFrame op => "Cannot perform " ++ op ++ " on an empty DataFrame"
  | .dataProcessing op details => "Error during " ++ op ++ ": " ++ details
  | .columnNotFound name avail =>
      "Column " ++ pyq ++ name ++ pyq ++ " not found. Available columns: " ++
        String.intercalate ", " avail

namespace Value

/-- Python string repetition `s * n` (non-positive count gives the empty
string). -/
def strRepeat (s : String) : ℤ → String
  | .ofNat n => String.join (List.replicate n s)
  | .negSucc _ => ""

/-- Elementwise subtraction, the semantics of `df[a] - df[b]` on one cell
pair: numbers subtract, a missing operand gives missing, strings raise. -/
def sub : Value → Value → Except String Value
  | num a, num b => .ok (num (a - b))
  | str _, _ => .error ("unsupported operand type(s) for -: " ++ pyq ++ "str" ++ pyq)
  | _, str _ => .error ("unsupported operand type(s) for -: " ++ pyq ++ "str" ++ pyq)
  | undef, _ => .ok undef
  | _, undef => .ok undef
  | missing, _ => .ok missing
  | _, missing => .ok missing

/-- Elementwise multiplication, the semantics of one cell pair under
`series * series`: numbers multiply, a string times an integer repeats the
string, a string times a string or a non-integer raises (`TypeError`),
a missing numeric operand gives missing. -/
def mul : Value → Value → Except String Value
  | num a, num b => .ok (num (a * b))
  | str _, str _ =>
      .error ("can" ++ pyq ++ "t multiply sequence by non-int of type " ++ pyq ++ "str" ++ pyq)
  | str s, num q =>
      if q.den = 1 then .ok (str (strRepeat s q.num))
      else .error ("can" ++ pyq ++ "t multiply sequence by non-int of type " ++ pyq ++ "float" ++ pyq)
  | num q, str s =>
      if q.den = 1 then .ok (str (strRepeat s q.num))
      else .error ("can" ++ pyq ++ "t multiply sequence by non-int of type " ++ pyq ++ "float" ++ pyq)
  | str _, _ =>
      .error ("can" ++ pyq ++ "t multiply sequence by non-int of type " ++ pyq ++ "float" ++ pyq)
  | _, str _ =>
      .error ("can" ++ pyq ++ "t multiply sequence by non-int of type " ++ pyq ++ "float" ++ pyq)
  | undef, _ => .ok undef
  | _, undef => .ok undef
  | missing, _ => .ok missing
  | _, missing => .ok missing

/-- Elementwise division, the semantics of `df[a] / df[b]` on one cell pair:
division by zero follows floating-point semantics (`0/0` is NaN, otherwise an
infinity); strings raise. -/
def div : Value → Value → Except String Value
  | num a, num b =>
      if b = 0 then (if a = 0 then .ok missing else .ok undef) else .ok (num (a / b))
  | str _, _ => .error ("unsupported operand type(s) for /: " ++ pyq ++ "str" ++ pyq)
  | _, str _ => .error ("unsupported operand type(s) for /: " ++ pyq ++ "str" ++ pyq)
  | undef, _ => .ok undef
  | _, undef => .ok undef
  | missing, _ => .ok missing
  | _, missing => .ok missing

/-- `pd.isna` on one cell. -/
def isna : Value → Bool
  | missing => true
  | _ => false

end Value

/-- Row-wise sum with pandas default `skipna=True` semantics: missing cells
are skipped (an all-missing row sums to `0`), a string cell raises, an
`undef` cell makes the row sum `undef`. -/
def rowSumGo (acc : ℚ) : List Value → Except String Value
  | [] => .ok (Value.num acc)
  | Value.num q :: t => rowSumGo (acc + q) t
  | Value.missing :: t => rowSumGo acc t
  | Value.undef :: _ => .ok Value.undef
  | Value.str _ :: _ =>
      .error ("unsupported operand type(s) for +: " ++ pyq ++ "int" ++ pyq ++ " and " ++ pyq ++ "str" ++ pyq)

/-- `df[source_columns].sum(axis=1)` on one row of selected cells. -/
def rowSum (vs : List Value) : Except String Value := rowSumGo 0 vs

/-- Row-wise mean with `skipna=True`: the mean of the non-missing cells, NaN
when every cell is missing; strings raise. -/
def rowMeanGo (acc : ℚ) (n : Nat) : List Value → Except String Value
  | [] => if n = 0 then .ok Value.missing else .ok (Value.num (acc / (n : ℚ)))
  | Value.num q :: t => rowMeanGo (acc + q) (n + 1) t
  | Value.missing :: t => rowMeanGo acc n t
  | Value.undef :: _ => .ok Value.undef
  | Value.str _ :: _ =>
      .error ("unsupported operand type(s) for +: " ++ pyq ++ "int" ++ pyq ++ " and " ++ pyq ++ "str" ++ pyq)

/-- `df[source_columns].mean(axis=1)` on one row of selected cells. -/
def rowMean (vs : List Value) : Except String Value := rowMeanGo 0 0 vs

/-- Apply a binary cell operation across two whole columns, raising on the
first failing cell pair (a pandas series operation raises as a whole, before
any assignment happens). -/
def seriesZip (f : Value → Value → Except String Value) :
    List Value → List Value → Except String (List Value)
  | [], _ => .ok []
  | _ :: _, [] => .ok []
  | a :: as, b :: bs => do
      let v ← f a b
      let vs ← seriesZip f as bs
      .ok (v :: vs)

/-- Build the per-element results of `f` left to right, propagating the
first raised error (the Python loops append one result per element and
abort on the first exception). -/
def exceptMap (f : α → Except ε β) : List α → Except ε (List β)
  | [] => .ok []
  | a :: t =>
    match f a with
    | .error e => .error e
    | .ok b =>
      match exceptMap f t with
      | .error e => .error e
      | .ok bs => .ok (b :: bs)

/-! ## Inspection tools (`app/core/agents/tools/inspection_tools.py`) -/

/-- Payload record `DataFrameColumn` of `tools/types.py`: per-column
classification, with the distinct-value list only for categorical columns. -/
structure DataFrameColumn where
  column_name : String
  is_categorical : Bool
  unique_values : Option (List Value) := none
deriving DecidableEq, Repr

/-- Payload record `CategoricalValue` of `tools/types.py`. -/
structure CategoricalValue where
  value : String
  count : Nat
  percentage : ℚ
deriving DecidableEq, Repr

/-- Payload record `DataFrameColumnDetailedInformation` of `tools/types.py`. -/
structure DataFrameColumnDetailedInformation where
  column_name : String
  is_categorical : Bool
  unique_values : List Value
  value_details : List CategoricalValue
deriving DecidableEq, Repr

/-- Payload record `DataFrameColumnSampleValues` of `tools/types.py`. -/
structure DataFrameColumnSampleValues where
  column_name : String
  sample_values : List Value
deriving DecidableEq, Repr

/-- `series.unique()`: the distinct values in order of first appearance. -/
def uniqueInOrder (vs : List Value) : List Value :=
  vs.foldl (fun acc v => if acc.contains v then acc else acc ++ [v]) []

/-- `get_column_names`. -/
def get_column_names (df : DataFrame) : Except Err (List String) :=
  if df.isEmptyB then .error (.emptyDataFrame "get column names")
  else .ok df.cols

/-- `get_categorical_and_continuous_information`: classifies every column by
the distinct-value density heuristic `num_unique / num_rows < 0.1` (the
division is exact here where Python uses floats; no claim depends on float
rounding of the ratio). -/
def get_categorical_and_continuous_information (df : DataFrame) :
    Except Err (List DataFrameColumn) :=
  if df.isEmptyB then .error (.emptyDataFrame "categorical and continuous info analysis")
  else
    let num_rows := df.rows.length
    .ok (df.cols.map (fun c =>
      let unique_values := uniqueInOrder (((df.colCells? c).getD []).filter (fun v => !v.isna))
      let num_unique := unique_values.length
      let is_categorical :=
        if num_rows > 0 then decide ((num_unique : ℚ) / (num_rows : ℚ) < 1/10) else false
      if is_categorical then
        { column_name := c, is_categorical := is_categorical, unique_values := some unique_values }
      else
        { column_name := c, is_categorical := is_categorical }))

/-- Stable insertion of one `(value, count)` pair into a list sorted by
descending count. -/
def insertByCountDesc (p : Value × Nat) : List (Value × Nat) → List (Value × Nat)
  | [] => [p]
  | q :: t => if q.2 < p.2 then p :: q :: t else q :: insertByCountDesc p t

/-- `series.value_counts(dropna=False)`: distinct values (missing included)
with their counts, sorted by descending count, first appearance breaking
ties. -/
def valueCounts (cells : List Value) : List (Value × Nat) :=
  ((uniqueInOrder cells).map (fun v => (v, cells.count v))).foldr insertByCountDesc []

/-- Abstraction of Python `str(value)` for the report payload; the exact
digit rendering of numbers is not modelled. -/
def valueToStr : Value → String
  | .str s => s
  | .num q => toString q
  | .undef => "inf"
  | .missing => "<MISSING>"

/-- Python `round(x, 1)` (banker's rounding, half to even). -/
def pyRound1 (q : ℚ) : ℚ :=
  let x := q * 10
  let f : ℤ := Int.floor x
  let r : ℤ := if x - f = 1/2 then (if f % 2 = 0 then f else f + 1) else round x
  (r : ℚ) / 10

/-- `get_column_detailed_information`: per-value counts and percentages for
one column, missing values reported under the synthetic `<MISSING>` bucket. -/
def get_column_detailed_information (df : DataFrame) (column_name : String) :
    Except Err DataFrameColumnDetailedInformation :=
  if df.isEmptyB then .error (.emptyDataFrame "unique values analysis")
  else if column_name = "" then .error (.columnNotFound "" df.cols)
  else if !df.hasCol column_name then .error (.columnNotFound column_name df.cols)
  else
    let cells := (df.colCells? column_name).getD []
    let vcs := valueCounts cells
    let total := df.rows.length
    .ok { column_name := column_name
          is_categorical := true
          unique_values := vcs.map Prod.fst
          value_details := vcs.map (fun p =>
            { value := if p.1.isna then "<MISSING>" else valueToStr p.1
              count := p.2
              percentage := pyRound1 ((p.2 : ℚ) / (total : ℚ) * 100) }) }

/-- One step of a linear congruential generator. Stands in for the numpy
pseudo-random generator seeded by `random_state`: the embedding preserves
what matters to the code's contract — determinism in the seed and selection
of distinct row positions without replacement — not the exact numpy index
stream. -/
def lcgNext (s : Nat) : Nat := (1664525 * s + 1013904223) % 4294967296

/-- Draw `n` distinct positions from `pool` without replacement, driven by
the generator state. -/
def samplePositions : Nat → List Nat → Nat → List Nat
  | _, _, 0 => []
  | _, [], _ + 1 => []
  | seed, pool, n + 1 =>
    let s := lcgNext seed
    let i := s % pool.length
    pool.getD i 0 :: samplePositions s (pool.eraseIdx i) n

/-- `series.sample(n, random_state=rstate)`. `entropy` models the ambient
process randomness numpy would fall back to without a seed; a fixed
`random_state` ignores it. Raises `ValueError` when `n` is negative or
exceeds the population (sampling is without replacement). -/
def seriesSample (rstate : Option Nat) (entropy : Nat) (xs : List Value) (n : ℤ) :
    Except String (List Value) :=
  if n < 0 then .error "A negative number of rows requested. Please provide n >= 0."
  else if xs.length < n.toNat then
    .error ("Cannot take a larger sample than population when " ++ pyq ++ "replace=False" ++ pyq)
  else
    let seed := rstate.getD entropy
    .ok ((samplePositions seed (List.range xs.length) n.toNat).map (fun i => xs.getD i Value.missing))

/-- `get_column_sample_values`: samples `num_samples` values from every
column with the fixed seed `random_state=42`; a `ValueError` from the
sampler is wrapped as a `DataProcessingError`. -/
def get_column_sample_values (entropy : Nat) (df : DataFrame) (num_samples : ℤ) :
    Except Err (List DataFrameColumnSampleValues) :=
  if df.isEmptyB then .error (.emptyDataFrame "column sample values")
  else
    match exceptMap (fun c =>
      (seriesSample (some 42) entropy ((df.colCells? c).getD []) num_samples).map
        (fun vs => DataFrameColumnSampleValues.mk c vs)) df.cols with
    | .ok l => .ok l
    | .error msg => .error (.dataProcessing "column sample values" msg)

/-! ## Transformation tools (`app/core/agents/tools/transformation_tools.py`)

Each embedded transformation returns the post-call state of the caller-held
table (the Python functions mutate the shared object in place) together with
the raised error, if any. -/

/-- `rename_column`: every validation happens before the in-place rename, so
a failure leaves the table unchanged. -/
def rename_column (df : DataFrame) (old_column_name new_column_name : String) :
    DataFrame × Option Err :=
  if df.isEmptyB then (df, some (.emptyDataFrame "column rename"))
  else if old_column_name = "" then (df, some (.columnNotFound old_column_name df.cols))
  else if new_column_name = "" then (df, some (.columnNotFound new_column_name df.cols))
  else if !df.hasCol old_column_name then (df, some (.columnNotFound old_column_name df.cols))
  else if df.hasCol new_column_name && new_column_name != old_column_name then
    (df, some (.dataProcessing "column rename" "new column name already exists"))
  else
    ({ cols := df.cols.map (fun c => if c = old_column_name then new_column_name else c)
       rows := df.rows }, none)

/-- `replace_value`: a case-insensitive `"nan"`/`"none"` old value targets
the missing cells of the column; otherwise exact string matches are
replaced, and no match at all is a successful no-op. -/
def replace_value (df : DataFrame) (column_name old_value new_value : String) :
    DataFrame × Option Err :=
  if column_name = "" || old_value = "" || new_value = "" then
    (df, some (.dataProcessing "replace value"
      ("Missing required parameters. Please provide " ++ pyq ++ "column_name" ++ pyq ++
        ", " ++ pyq ++ "old_value" ++ pyq ++ ", and " ++ pyq ++ "new_value" ++ pyq ++ ".")))
  else
    match df.colIdx column_name with
    | none => (df, some (.columnNotFound column_name df.cols))
    | some j =>
      if old_value.toLower = "nan" || old_value.toLower = "none" then
        (df.mapColAt j (fun v => if v.isna then .str new_value else v), none)
      else
        let cells := df.colCellsAt j
        if cells.any (fun v => decide (v = .str old_value)) then
          (df.mapColAt j (fun v => if v = .str old_value then .str new_value else v), none)
        else (df, none)

/-- The cells of one row at the named source columns (all names are present
when this is reached, after the existence check). -/
def selectCells (df : DataFrame) (r : List Value) (srcs : List String) : List Value :=
  srcs.map (fun s => r.getD ((df.colIdx s).getD 0) Value.missing)

/-- The standard wrapper text of the catch-all branch in
`add_new_column_from_math_operation`. -/
def mathOpWrap (e : String) : Err :=
  .dataProcessing "add new column from math operation"
    ("An unexpected error occurred during the operation: " ++ e)

/-- The in-place accumulation loop of the `product` branch:
`df[column_name] *= df[col]` over the remaining source columns. Each
successful step writes the column back, so a step that raises leaves the
partially accumulated column in the table. -/
def productLoop (column_name : String) : DataFrame → List String → DataFrame × Option Err
  | df, [] => (df, none)
  | df, c :: rest =>
    match seriesZip Value.mul ((df.colCells? column_name).getD [])
        ((df.colCells? c).getD []) with
    | .error e => (df, some (mathOpWrap e))
    | .ok vs => productLoop column_name (df.setCol column_name vs) rest

/-- `add_new_column_from_math_operation`: validates the name, the source
list and column existence, then dispatches on `operation_type`. -/
def add_new_column_from_math_operation (df : DataFrame)
    (column_name operation_type : String) (source_columns : List String) :
    DataFrame × Option Err :=
  if column_name = "" then
    (df, some (.dataProcessing "add new column from math operation"
      "`column_name` must be a non-empty string."))
  else if source_columns.length < 2 then
    (df, some (.dataProcessing "add new column from math operation"
      "`source_columns` must be a list with at least two columns."))
  else
    match source_columns.find? (fun c => !df.hasCol c) with
    | some c => (df, some (.columnNotFound c df.cols))
    | none =>
      if operation_type = "sum" then
        match exceptMap (fun r => rowSum (selectCells df r source_columns)) df.rows with
        | .error e => (df, some (mathOpWrap e))
        | .ok vs => (df.setCol column_name vs, none)
      else if operation_type = "difference" then
        if source_columns.length ≠ 2 then
          (df, some (.dataProcessing "add new column from math operation"
            (pyq ++ "difference" ++ pyq ++ " operation requires exactly two source columns.")))
        else
          match seriesZip Value.sub ((df.colCells? (source_columns.getD 0 "")).getD [])
              ((df.colCells? (source_columns.getD 1 "")).getD []) with
          | .error e => (df, some (mathOpWrap e))
          | .ok vs => (df.setCol column_name vs, none)
      else if operation_type = "product" then
        productLoop column_name
          (df.setCol column_name ((df.colCells? (source_columns.getD 0 "")).getD []))
          (source_columns.drop 1)
      else if operation_type = "quotient" then
        if source_columns.length ≠ 2 then
          (df, some (.dataProcessing "add new column from math operation"
            (pyq ++ "quotient" ++ pyq ++ " operation requires exactly two source columns.")))
        else
          match seriesZip Value.div ((df.colCells? (source_columns.getD 0 "")).getD [])
              ((df.colCells? (source_columns.getD 1 "")).getD []) with
          | .error e => (df, some (mathOpWrap e))
          | .ok vs => (df.setCol column_name vs, none)
      else if operation_type = "mean" then
        match exceptMap (fun r => rowMean (selectCells df r source_columns)) df.rows with
        | .error e => (df, some (mathOpWrap e))
        | .ok vs => (df.setCol column_name vs, none)
      else
        (df, some (.dataProcessing "add new column from math operation"
          ("Unsupported operation_type " ++ pyq ++ operation_type ++ pyq ++
            ". Please use " ++ pyq ++ "sum" ++ pyq ++ ", " ++ pyq ++ "difference" ++ pyq ++
            ", " ++ pyq ++ "product" ++ pyq ++ ", " ++ pyq ++ "quotient" ++ pyq ++
            ", or " ++ pyq ++ "mean" ++ pyq ++ ".")))

/-- Index of the mapping column that supplies the values of the new merged
column: the first mapping column other than the join key (the key column
itself when the mapping table has no other column). -/
def mappingValueIdx (mapping : DataFrame) (mj : Nat) : Nat :=
  ((List.range mapping.cols.length).find? (fun j => j ≠ mj)).getD mj

/-- Modelled from the spec: `transformation_tools.merge_dataframes` is called
by the agent in `data_agent.py` but its definition is missing from the
repository sources. Following the spec entry for `merge_lookup`: a left join
of the mapping table into the primary table keyed on `primary_df_col` /
`mapping_df_col`. Every primary row is preserved; an unmatched primary row
receives a missing value in `new_column_name`; each matching
(primary row, mapping row) pair contributes exactly one output row. The spec
leaves open which mapping column supplies the new values; the model takes
the first mapping column other than the key. A missing key column raises,
caught at the agent boundary. -/
def merge_dataframes (primary_df mapping_df : DataFrame)
    (primary_df_col mapping_df_col new_column_name : String) : Except Err DataFrame :=
  match primary_df.colIdx primary_df_col, mapping_df.colIdx mapping_df_col with
  | some pj, some mj =>
    let vj := mappingValueIdx mapping_df mj
    .ok { cols := primary_df.cols ++ [new_column_name]
          rows := primary_df.rows.flatMap (fun r =>
            let key := r.getD pj Value.missing
            let ms := mapping_df.rows.filter (fun mr => decide (mr.getD mj Value.missing = key))
            if ms.isEmpty then [r ++ [Value.missing]]
            else ms.map (fun mr => r ++ [mr.getD vj Value.missing])) }
  | none, _ => .error (.dataProcessing "merge dataframes" (pyq ++ primary_df_col ++ pyq))
  | _, none => .error (.dataProcessing "merge dataframes" (pyq ++ mapping_df_col ++ pyq))

/-! ## Agent orchestrator boundary (`app/core/agents/data_agent.py`) -/

/-- `DataFrameType`. -/
inductive DataFrameType where
  | primary
  | mapping
deriving DecidableEq, Repr

/-- The structured payload carried in `ToolResponse.other_info`. -/
inductive Payload where
  | columnNames (column_names : List String)
  | columnList (columns : List DataFrameColumn)
  | columnDetails (info : DataFrameColumnDetailedInformation)
  | sampleValues (columns : List DataFrameColumnSampleValues)
deriving DecidableEq, Repr

/-- The uniform result envelope `ToolResponse`. -/
structure ToolResponse where
  execution_success : Bool
  error_message : Option String := none
  success_message : Option String := none
  other_info : Option Payload := none
deriving DecidableEq, Repr

/-- The success shape every tool wrapper constructs. -/
def respSuccess (msg : String) (info : Option Payload) : ToolResponse :=
  { execution_success := true, success_message := some msg, other_info := info }

/-- The failure shape every tool wrapper constructs. -/
def respError (msg : String) : ToolResponse :=
  { execution_success := false, error_message := some msg }

/-- The table references held by one `DataAgent` (`self.dfs`). -/
structure AgentState where
  primary : DataFrame
  mapping : Option DataFrame
deriving DecidableEq, Repr

/-- `self._get_df(df_type)`. -/
def AgentState.getDf (s : AgentState) : DataFrameType → Option DataFrame
  | .primary => some s.primary
  | .mapping => s.mapping

/-- `self._set_df(df, df_type)`. -/
def AgentState.setDf (s : AgentState) (df : DataFrame) : DataFrameType → AgentState
  | .primary => { s with primary := df }
  | .mapping => { s with mapping := some df }

/-- One language-model-issued tool invocation with its bound arguments. -/
inductive ToolCall where
  | getColumnNames (df_type : DataFrameType)
  | getColumnDetailedInformation (column_name : String) (df_type : DataFrameType)
  | getCategoricalAndContinuousInfo (df_type : DataFrameType)
  | getColumnSampleValues (num_samples : ℤ) (df_type : DataFrameType)
  | renameColumn (old_column_name new_column_name : String) (df_type : DataFrameType)
  | replaceValue (column_name old_value new_value : String) (df_type : DataFrameType)
  | addNewColumnFromMathOperation (column_name operation_type : String)
      (source_columns : List String) (df_type : DataFrameType)
  | mergeDataframes (primary_df_col mapping_df_col new_column_name : String)
deriving DecidableEq, Repr

/-- Python `AttributeError` text for an operation applied to an absent
(`None`) table. -/
def noneAttrMsg (attr : String) : String :=
  pyq ++ "NoneType" ++ pyq ++ " object has no attribute " ++ pyq ++ attr ++ pyq

/-- The tool-calling boundary of `DataAgent.get_tools`: dispatches one tool
call against the held tables and wraps the outcome in a `ToolResponse`.
An operation invoked on an absent (`None`) table raises an
`AttributeError` at its first attribute access, caught — like every other
exception — by the wrapper's catch-all and turned into a failure envelope.
`entropy` is the ambient randomness available to the sampler (unused, since
the code fixes `random_state=42`). -/
def runTool (entropy : Nat) (s : AgentState) : ToolCall → AgentState × ToolResponse
  | .getColumnNames df_type =>
    match s.getDf df_type with
    | none => (s, respError (noneAttrMsg "empty"))
    | some df =>
      match get_column_names df with
      | .ok names => (s, respSuccess "Column names retrieved successfully"
          (some (.columnNames names)))
      | .error e => (s, respError e.toMessage)
  | .getColumnDetailedInformation column_name df_type =>
    match s.getDf df_type with
    | none => (s, respError (noneAttrMsg "empty"))
    | some df =>
      match get_column_detailed_information df column_name with
      | .ok info => (s, respSuccess "Unique values retrieved successfully"
          (some (.columnDetails info)))
      | .error e => (s, respError e.toMessage)
  | .getCategoricalAndContinuousInfo df_type =>
    match s.getDf df_type with
    | none => (s, respError (noneAttrMsg "empty"))
    | some df =>
      match get_categorical_and_continuous_information df with
      | .ok cols => (s, respSuccess "Categorical and continuous info retrieved successfully"
          (some (.columnList cols)))
      | .error e => (s, respError e.toMessage)
  | .getColumnSampleValues num_samples df_type =>
    match s.getDf df_type with
    | none => (s, respError (noneAttrMsg "empty"))
    | some df =>
      match get_column_sample_values entropy df num_samples with
      | .ok vs => (s, respSuccess "Sample values retrieved successfully"
          (some (.sampleValues vs)))
      | .error e => (s, respError e.toMessage)
  | .renameColumn old_column_name new_column_name df_type =>
    match s.getDf df_type with
    | none => (s, respError (Err.toMessage (.dataProcessing "column rename"
        ("unexpected error: " ++ noneAttrMsg "empty"))))
    | some df =>
      match rename_column df old_column_name new_column_name with
      | (post, none) => (s.setDf post df_type, respSuccess
          ("Successfully renamed column " ++ pyq ++ old_column_name ++ pyq ++ " to " ++
            pyq ++ new_column_name ++ pyq ++ ".") none)
      | (post, some e) => (s.setDf post df_type, respError e.toMessage)
  | .replaceValue column_name old_value new_value df_type =>
    match s.getDf df_type with
    | none => (s, respError (Err.toMessage (.dataProcessing "replace value"
        (noneAttrMsg "columns"))))
    | some df =>
      match replace_value df column_name old_value new_value with
      | (post, none) => (s.setDf post df_type, respSuccess
          ("Successfully replaced " ++ pyq ++ old_value ++ pyq ++ " with " ++ pyq ++
            new_value ++ pyq ++ " in column " ++ pyq ++ column_name ++ pyq ++ ".") none)
      | (post, some e) => (s.setDf post df_type, respError e.toMessage)
  | .addNewColumnFromMathOperation column_name operation_type source_columns df_type =>
    match s.getDf df_type with
    | none => (s, respError (noneAttrMsg "columns"))
    | some df =>
      match add_new_column_from_math_operation df column_name operation_type source_columns with
      | (post, none) => (s.setDf post df_type, respSuccess
          ("Successfully added new column " ++ pyq ++ column_name ++ pyq ++ " with a " ++
            pyq ++ operation_type ++ pyq ++ " operation.") none)
      | (post, some e) => (s.setDf post df_type, respError e.toMessage)
  | .mergeDataframes primary_df_col mapping_df_col new_column_name =>
    match s.mapping with
    | none => (s, respError
        "Mapping DataFrame is not available or is empty. Cannot perform merge operation.")
    | some mapping_df =>
      if mapping_df.isEmptyB then
        (s, respError
          "Mapping DataFrame is not available or is empty. Cannot perform merge operation.")
      else
        match merge_dataframes s.primary mapping_df primary_df_col mapping_df_col
            new_column_name with
        | .ok updated => ({ s with primary := updated }, respSuccess
            ("Successfully merged data and added new column " ++ pyq ++ new_column_name ++
              pyq ++ ".") none)
        | .error e => (s, respError e.toMessage)

/-! ## Language-model client factory (`app/core/llm/llm_factory.py`) -/

/-- A constructed `ChatLiteLLM` client. `uid` is a construction counter that
stands for object identity, so equal `uid`s mean the very same instance.
`temperature` and `max_tokens` are carried as their Python `str(...)`
renderings, which is how the factory key consumes them. -/
structure LLMClient where
  uid : Nat
  model : String
  temperature : String
  max_tokens : String
  api_key : String
  kwargs : List (String × String)
deriving DecidableEq, Repr

/-- The class-level registry `LLMFactory._instances` plus the construction
counter realising object identity. -/
structure FactoryState where
  instances : List (String × LLMClient)
  nextUid : Nat
deriving DecidableEq, Repr

/-- The cache key `f"{model}_temp{temperature}_maxtok{max_tokens}"`. -/
def configKey (model temperature max_tokens : String) : String :=
  model ++ "_temp" ++ temperature ++ "_maxtok" ++ max_tokens

/-- `LLMFactory.get_llm`: returns the cached client for the configuration
key when present, otherwise constructs one from all the supplied arguments
and stores it under the key. -/
def get_llm (s : FactoryState) (model api_key temperature max_tokens : String)
    (kwargs : List (String × String)) : FactoryState × LLMClient :=
  let config_key := configKey model temperature max_tokens
  match s.instances.find? (fun p => decide (p.1 = config_key)) with
  | some p => (s, p.2)
  | none =>
    let llm : LLMClient :=
      { uid := s.nextUid, model := model, temperature := temperature
        max_tokens := max_tokens, api_key := api_key, kwargs := kwargs }
    ({ instances := (config_key, llm) :: s.instances, nextUid := s.nextUid + 1 }, llm)

/-! ## Basic lemmas about the table embedding -/

theorem DataFrame.colIdx_lt {df : DataFrame} {name : String} {j : Nat}
    (h : df.colIdx name = some j) : j < df.cols.length :=
  (List.findIdx?_eq_some_iff_findIdx_eq.mp h).1

theorem DataFrame.colIdx_get {df : DataFrame} {name : String} {j : Nat}
    (h : df.colIdx name = some j) : df.cols.get ⟨j, df.colIdx_lt h⟩ = name := by
  obtain ⟨hlt, hfi⟩ := List.findIdx?_eq_some_iff_findIdx_eq.mp h
  subst hfi
  have := @List.findIdx_getElem _ (fun c => decide (c = name)) df.cols hlt
  simpa [List.get_eq_getElem, decide_eq_true_eq] using this

theorem DataFrame.colIdx_ne {df : DataFrame} {n1 n2 : String} {j1 j2 : Nat}
    (h1 : df.colIdx n1 = some j1) (h2 : df.colIdx n2 = some j2)
    (hne : n1 ≠ n2) : j1 ≠ j2 := by
  intro hj
  apply hne
  rw [← df.colIdx_get h1, ← df.colIdx_get h2]
  simp [hj]

/-! ## Claim theorems -/

/-- C10: two calls to the language-model client factory with the same
(model, temperature, max output length) configuration yield the identical
cached client instance: when the configuration is not yet cached, the first
call constructs the client from its own `api_key` and keyword arguments, and
the second call — even with a different `api_key` and different keyword
arguments — returns that very instance. -/
theorem llm_factory_cache_second_call (s : FactoryState)
    (model k1 k2 t mt : String) (kw1 kw2 : List (String × String))
    (h : s.instances.find? (fun p => decide (p.1 = configKey model t mt)) = none) :
    (get_llm (get_llm s model k1 t mt kw1).1 model k2 t mt kw2).2 =
        (get_llm s model k1 t mt kw1).2 ∧
    (get_llm s model k1 t mt kw1).2.api_key = k1 ∧
    (get_llm s model k1 t mt kw1).2.kwargs = kw1 := by
  simp [get_llm, h, List.find?_cons_of_pos]

/-- Witness for C10 at a concrete configuration: starting from an empty
cache, the client returned to the second caller is the first caller's
instance, constructed with the first caller's credentials. -/
theorem llm_factory_cache_second_call_witness :
    (get_llm (get_llm ⟨[], 0⟩ "gpt" "key1" "0.7" "None" []).1 "gpt" "key2" "0.7" "None"
        [("organization", "other")]).2 =
      (get_llm ⟨[], 0⟩ "gpt" "key1" "0.7" "None" []).2 ∧
    (get_llm ⟨[], 0⟩ "gpt" "key1" "0.7" "None" []).2.api_key = "key1" ∧
    (get_llm ⟨[], 0⟩ "gpt" "key1" "0.7" "None" []).2.kwargs = [] :=
  llm_factory_cache_second_call ⟨[], 0⟩ "gpt" "key1" "key2" "0.7" "None" []
    [("organization", "other")] rfl

/-- C2: the atomicity contract fails in the code. In the `product` branch of
`add_new_column_from_math_operation` the target column is first assigned a
copy of the first source column and only then multiplied in place by the
remaining sources, so a multiplication that raises — here two string
columns — leaves the partially written column in the shared table even
though the call reports failure: the caller-held table after the failed call
differs from the table before it. -/
theorem add_column_product_partial_write :
    add_new_column_from_math_operation ⟨["A", "B"], [[.str "x", .str "y"]]⟩
        "P" "product" ["A", "B"] =
      (⟨["A", "B", "P"], [[.str "x", .str "y", .str "x"]]⟩,
        some (.dataProcessing "add new column from math operation"
          ("An unexpected error occurred during the operation: can" ++ pyq ++
            "t multiply sequence by non-int of type " ++ pyq ++ "str" ++ pyq))) ∧
    (add_new_column_from_math_operation ⟨["A", "B"], [[.str "x", .str "y"]]⟩
        "P" "product" ["A", "B"]).1 ≠ ⟨["A", "B"], [[.str "x", .str "y"]]⟩ := by
  constructor
  · rfl
  · decide

/-- C4 counterexample: a table with a column but zero rows is `empty` in the
pandas sense, so the classification operation raises `EmptyDataFrameError`
instead of classifying every column as not categorical. -/
theorem classify_zero_rows_fails_counterexample :
    get_categorical_and_continuous_information ⟨["a"], []⟩ =
      .error (.emptyDataFrame "categorical and continuous info analysis") := by
  rfl

/-- C5 counterexample: on a non-empty table, an empty column-name argument
makes `get_column_detailed_information` raise `ColumnNotFoundError` (the
`ColumnNotFound` kind), not `DataProcessingError` (the `InvalidOperation`
kind the claim expects). -/
theorem describe_empty_name_counterexample :
    get_column_detailed_information ⟨["a"], [[Value.num 1]]⟩ "" =
      .error (.columnNotFound "" ["a"]) := by
  rfl

/-- C6 counterexample: `num_samples = 0` is non-positive, yet sampling a
non-empty one-row table with it succeeds with an empty sample per column
(pandas `sample(0)` is legal; only a negative count raises). -/
theorem sample_zero_succeeds_counterexample :
    get_column_sample_values 0 ⟨["a"], [[Value.num 1]]⟩ 0 =
      .ok [{ column_name := "a", sample_values := [] }] := by
  rfl

/-- Envelope consistency of a `ToolResponse`: exactly the success-message
field is populated on success, exactly the error-message field on failure. -/
def envelopeConsistent (r : ToolResponse) : Prop :=
  (r.execution_success = true ∧ r.success_message.isSome = true ∧ r.error_message = none) ∨
  (r.execution_success = false ∧ r.error_message.isSome = true ∧ r.success_message = none)

/-- C3: every tool invocation, on any held tables and any arguments, returns
an envelope in which exactly one of `error_message` / `success_message` is
populated, consistently with `execution_success`. `runTool` is a total
function of the dispatched call, so no operation exception escapes the
wrapper: every failure path lands in a failure envelope. -/
theorem tool_response_envelope_consistent (entropy : Nat) (s : AgentState) (c : ToolCall) :
    envelopeConsistent (runTool entropy s c).2 := by
  have hs : ∀ m i, envelopeConsistent (respSuccess m i) := by
    intro m i
    left
    simp [respSuccess]
  have he : ∀ m, envelopeConsistent (respError m) := by
    intro m
    right
    simp [respError]
  cases c <;> dsimp only [runTool] <;> repeat' split
  all_goals first
    | exact hs _ _
    | exact he _

/-- C7: column sampling is a deterministic function of the table snapshot
and the requested count. The seed is fixed at `random_state=42` inside the
operation, so whatever ambient randomness (`e1`, `e2`) the process would
otherwise draw on, two invocations on the same non-empty table with the same
valid `num_samples` return identical per-column sample lists. -/
theorem sample_values_reproducible (e1 e2 : Nat) (df : DataFrame) (n : ℤ)
    (_h1 : df.isEmptyB = false) (_h2 : 0 < n) (_h3 : n ≤ (df.rows.length : ℤ)) :
    get_column_sample_values e1 df n = get_column_sample_values e2 df n := by
  simp only [get_column_sample_values, seriesSample, Option.getD_some]

/-- Witness for C7 on a concrete three-row table with two different ambient
randomness values. -/
theorem sample_values_reproducible_witness :
    (0:ℤ) < 2 ∧ (2:ℤ) ≤ ((DataFrame.mk ["a"] [[Value.num 1], [Value.num 2], [Value.num 3]]).rows.length : ℤ) ∧
    get_column_sample_values 0 ⟨["a"], [[Value.num 1], [Value.num 2], [Value.num 3]]⟩ 2 =
      get_column_sample_values 7 ⟨["a"], [[Value.num 1], [Value.num 2], [Value.num 3]]⟩ 2 :=
  ⟨by decide, by decide,
    sample_values_reproducible 0 7 ⟨["a"], [[Value.num 1], [Value.num 2], [Value.num 3]]⟩ 2
      rfl (by decide) (by decide)⟩

/-- Drawing `n` positions without replacement from a pool of at least `n`
yields exactly `n` positions. -/
theorem samplePositions_length (n : Nat) : ∀ (seed : Nat) (pool : List Nat),
    n ≤ pool.length → (samplePositions seed pool n).length = n := by
  induction n with
  | zero =>
    intro seed pool _
    cases pool <;> rfl
  | succ k ih =>
    intro seed pool h
    match pool with
    | [] => simp at h
    | p :: ps =>
      have hlt : (lcgNext seed) % (p :: ps).length < (p :: ps).length :=
        Nat.mod_lt _ (by simp)
      have hrec := ih (lcgNext seed)
        ((p :: ps).eraseIdx ((lcgNext seed) % (p :: ps).length)) ?_
      · show ((p :: ps).getD ((lcgNext seed) % (p :: ps).length) 0 ::
          samplePositions (lcgNext seed)
            ((p :: ps).eraseIdx ((lcgNext seed) % (p :: ps).length)) k).length = k + 1
        rw [List.length_cons, hrec]
      · rw [List.length_eraseIdx]
        simp only [hlt, if_true]
        simp only [List.length_cons] at h ⊢
        omega

/-- `exceptMap` succeeds elementwise: when every element maps to a success
satisfying `P`, the whole traversal succeeds with one result per element,
all satisfying `P`. -/
theorem exceptMap_ok_of_forall {α β ε : Type} (f : α → Except ε β) (P : β → Prop)
    (l : List α) (h : ∀ a ∈ l, ∃ b, f a = .ok b ∧ P b) :
    ∃ bs, exceptMap f l = .ok bs ∧ bs.length = l.length ∧ ∀ b ∈ bs, P b := by
  induction l with
  | nil => exact ⟨[], rfl, rfl, by simp⟩
  | cons a t ih =>
    obtain ⟨b, hb, hPb⟩ := h a (by simp)
    obtain ⟨bs, hbs, hlen, hP⟩ := ih (fun x hx => h x (by simp [hx]))
    refine ⟨b :: bs, ?_, by simp [hlen], ?_⟩
    · simp [exceptMap, hb, hbs]
    · intro x hx
      rcases List.mem_cons.mp hx with rfl | hx
      · exact hPb
      · exact hP _ hx

/-- Every present column has an index. -/
theorem DataFrame.colIdx_of_mem {df : DataFrame} {c : String} (h : c ∈ df.cols) :
    ∃ j, df.colIdx c = some j := by
  have := @List.findIdx?_eq_some_of_exists _ df.cols
    (fun x => decide (x = c)) ⟨c, h, by simp⟩
  exact ⟨_, this⟩

/-- A column read by position always has one cell per row. -/
theorem DataFrame.length_colCellsAt (df : DataFrame) (j : Nat) :
    (df.colCellsAt j).length = df.rows.length := by
  simp [DataFrame.colCellsAt]

/-- C6 (amended): sampling fails with `EmptyTable` on an empty table and
with `InvalidOperation` when `num_samples` exceeds the available rows
(sampling is without replacement) or is negative; otherwise — including
`num_samples = 0`, which the claim wrongly counted as a failure — it
succeeds with exactly `num_samples` values for every column. -/
theorem sample_error_cases (entropy : Nat) (df : DataFrame) (n : ℤ) :
    (df.isEmptyB = true ∧ get_column_sample_values entropy df n =
        .error (.emptyDataFrame "column sample values")) ∨
    (df.isEmptyB = false ∧ n < 0 ∧ ∃ d, get_column_sample_values entropy df n =
        .error (.dataProcessing "column sample values" d)) ∨
    (df.isEmptyB = false ∧ 0 ≤ n ∧ (df.rows.length : ℤ) < n ∧
      ∃ d, get_column_sample_values entropy df n =
        .error (.dataProcessing "column sample values" d)) ∨
    (df.isEmptyB = false ∧ 0 ≤ n ∧ n ≤ (df.rows.length : ℤ) ∧
      ∃ l, get_column_sample_values entropy df n = .ok l ∧
        l.length = df.cols.length ∧ ∀ e ∈ l, e.sample_values.length = n.toNat) := by
  by_cases hE : df.isEmptyB = true
  · left
    exact ⟨hE, by simp [get_column_sample_values, hE]⟩
  · have hE' : df.isEmptyB = false := by simpa using hE
    have hcols : df.cols ≠ [] := by
      simp only [DataFrame.isEmptyB, Bool.or_eq_false_iff, List.isEmpty_eq_false] at hE'
      exact hE'.2
    obtain ⟨c, cs, hc⟩ := List.exists_cons_of_ne_nil hcols
    have hjc : df.colIdx c = some 0 := by
      simp [DataFrame.colIdx, hc, List.findIdx?_cons]
    have hcells : ((df.colCells? c).getD []).length = df.rows.length := by
      simp [DataFrame.colCells?, hjc, DataFrame.length_colCellsAt]
    by_cases hneg : n < 0
    · right; left
      refine ⟨hE', hneg, "A negative number of rows requested. Please provide n >= 0.", ?_⟩
      have hfc : exceptMap (fun c =>
          (seriesSample (some 42) entropy ((df.colCells? c).getD []) n).map
            (fun vs => DataFrameColumnSampleValues.mk c vs)) df.cols =
          .error "A negative number of rows requested. Please provide n >= 0." := by
        rw [hc]
        simp [exceptMap, seriesSample, hneg, Except.map]
      simp [get_column_sample_values, hE', hfc]
    · have hn0 : 0 ≤ n := by omega
      by_cases hbig : (df.rows.length : ℤ) < n
      · right; right; left
        refine ⟨hE', hn0, hbig, "Cannot take a larger sample than population when " ++
          pyq ++ "replace=False" ++ pyq, ?_⟩
        have hlen : ((df.colCells? c).getD []).length < n.toNat := by omega
        have hfc : exceptMap (fun c =>
            (seriesSample (some 42) entropy ((df.colCells? c).getD []) n).map
              (fun vs => DataFrameColumnSampleValues.mk c vs)) df.cols =
            .error ("Cannot take a larger sample than population when " ++
              pyq ++ "replace=False" ++ pyq) := by
          rw [hc]
          have : seriesSample (some 42) entropy ((df.colCells? c).getD []) n =
              .error ("Cannot take a larger sample than population when " ++
                pyq ++ "replace=False" ++ pyq) := by
            simp [seriesSample, hneg, hlen]
          simp [exceptMap, this, Except.map]
        simp [get_column_sample_values, hE', hfc]
      · right; right; right
        refine ⟨hE', hn0, by omega, ?_⟩
        have hall : ∀ a ∈ df.cols, ∃ b,
            (seriesSample (some 42) entropy ((df.colCells? a).getD []) n).map
              (fun vs => DataFrameColumnSampleValues.mk a vs) = .ok b ∧
            b.sample_values.length = n.toNat := by
          intro a ha
          obtain ⟨j, hj⟩ := DataFrame.colIdx_of_mem ha
          have hxs : ((df.colCells? a).getD []).length = df.rows.length := by
            simp [DataFrame.colCells?, hj, DataFrame.length_colCellsAt]
          have hnot : ¬ ((df.colCells? a).getD []).length < n.toNat := by omega
          refine ⟨⟨a, (samplePositions ((some 42).getD entropy)
            (List.range ((df.colCells? a).getD []).length) n.toNat).map
              (fun i => ((df.colCells? a).getD []).getD i Value.missing)⟩, ?_, ?_⟩
          · simp [seriesSample, hneg, hnot, Except.map, List.getD_eq_getElem?_getD]
          · have : n.toNat ≤ (List.range ((df.colCells? a).getD []).length).length := by
              simp only [List.length_range]
              omega
            simp [samplePositions_length _ _ _ this]
        obtain ⟨l, hl, hlen, hP⟩ := exceptMap_ok_of_forall _
          (fun (e : DataFrameColumnSampleValues) => e.sample_values.length = n.toNat)
          df.cols hall
        exact ⟨l, by simp [get_column_sample_values, hE', hl], hlen, hP⟩

/-- The classification rule as the claim words it, per column: categorical
iff the distinct non-missing count is below a tenth of the row count, with
the full distinct-value list exactly when categorical. -/
def claimedClassification (df : DataFrame) (c : String) : DataFrameColumn :=
  let u := uniqueInOrder (((df.colCells? c).getD []).filter (fun v => !v.isna))
  { column_name := c
    is_categorical := decide (10 * u.length < df.rows.length)
    unique_values := if 10 * u.length < df.rows.length then some u else none }

/-- C4 (amended): on every non-empty table the classification marks a column
categorical iff (distinct non-missing count / row count) < 0.1 — stated here
as `10 * distinct < rows` over exact arithmetic — and reports the
distinct-value list exactly for categorical columns. A zero-row table does
not reach this computation: it fails with `EmptyTable` (see the
counterexample), contrary to the claim's zero-row clause. -/
theorem classify_columns_heuristic (df : DataFrame) (h : df.isEmptyB = false) :
    get_categorical_and_continuous_information df =
      .ok (df.cols.map (claimedClassification df)) := by
  have hrowsne : df.rows.isEmpty = false ∧ df.cols.isEmpty = false := by
    simpa [DataFrame.isEmptyB, Bool.or_eq_false_iff] using h
  have hn : 0 < df.rows.length := by
    cases hr : df.rows with
    | nil =>
      rw [hr] at hrowsne
      simp at hrowsne
    | cons a t => simp [hr]
  have hiff : ∀ u : ℕ,
      ((u : ℚ) / (df.rows.length : ℚ) < 1/10) ↔ (10 * u < df.rows.length) := by
    intro u
    rw [div_lt_div_iff (by exact_mod_cast hn) (by norm_num : (0:ℚ) < 10), one_mul]
    rw [show (u:ℚ) * 10 = ((10*u : ℕ) : ℚ) by push_cast; ring]
    exact Nat.cast_lt
  simp only [get_categorical_and_continuous_information, h, Bool.false_eq_true, if_false,
    Except.ok.injEq]
  apply List.map_congr_left
  intro c hc
  by_cases hcat : 10 * (uniqueInOrder (((df.colCells? c).getD []).filter
      (fun v => !v.isna))).length < df.rows.length
  · have hd : ((((uniqueInOrder (((df.colCells? c).getD []).filter
        (fun v => !v.isna))).length : ℚ)) / (df.rows.length : ℚ) < 1/10) :=
      (hiff _).mpr hcat
    simp only [one_div] at hd
    simp [claimedClassification, hn, hd, hcat]
  · have hd : ¬ ((((uniqueInOrder (((df.colCells? c).getD []).filter
        (fun v => !v.isna))).length : ℚ)) / (df.rows.length : ℚ) < 1/10) :=
      fun hlt => hcat ((hiff _).mp hlt)
    simp only [one_div] at hd
    simp [claimedClassification, hn, hd, hcat]

/-- Witness for C4's amended heuristic on a concrete eleven-row table: one
repeated value out of eleven rows is below the 0.1 density bound, so the
column is categorical and carries its distinct-value list. -/
theorem classify_columns_heuristic_witness :
    get_categorical_and_continuous_information
        (DataFrame.mk ["a"] (List.replicate 11 [Value.num 1])) =
      .ok [{ column_name := "a", is_categorical := true,
             unique_values := some [Value.num 1] }] := by
  rw [classify_columns_heuristic (DataFrame.mk ["a"] (List.replicate 11 [Value.num 1])) rfl]
  rfl

/-- C5 (amended): `get_column_detailed_information` fails with `EmptyTable`
on an empty table, with `ColumnNotFound` (not the claim's
`InvalidOperation`) when the column-name argument is the empty string, with
`ColumnNotFound` when the named column is absent, and succeeds otherwise. -/
theorem describe_column_error_cases (df : DataFrame) (column_name : String) :
    (df.isEmptyB = true ∧ get_column_detailed_information df column_name =
        .error (.emptyDataFrame "unique values analysis")) ∨
    (df.isEmptyB = false ∧ column_name = "" ∧
      get_column_detailed_information df column_name =
        .error (.columnNotFound "" df.cols)) ∨
    (df.isEmptyB = false ∧ column_name ≠ "" ∧ df.hasCol column_name = false ∧
      get_column_detailed_information df column_name =
        .error (.columnNotFound column_name df.cols)) ∨
    (df.isEmptyB = false ∧ column_name ≠ "" ∧ df.hasCol column_name = true ∧
      ∃ info, get_column_detailed_information df column_name = .ok info) := by
  by_cases h1 : df.isEmptyB = true
  · left
    exact ⟨h1, by simp [get_column_detailed_information, h1]⟩
  · have h1' : df.isEmptyB = false := by simpa using h1
    by_cases h2 : column_name = ""
    · right; left
      exact ⟨h1', h2, by simp [get_column_detailed_information, h1', h2]⟩
    · by_cases h3 : df.hasCol column_name
      · right; right; right
        refine ⟨h1', h2, h3, ?_⟩
        simp only [get_column_detailed_information, h1', h2, h3]
        simp
      · right; right; left
        refine ⟨h1', h2, by simpa using h3, ?_⟩
        simp [get_column_detailed_information, h1', h2, h3]

/-- Cell-level reading of an in-place masked column update: the cells of the
updated column position are transformed by `f`, every other cell — and every
out-of-range read — is untouched. -/
theorem DataFrame.cellAt_mapColAt (df : DataFrame) (j : Nat) (f : Value → Value)
    (hwf : ∀ r ∈ df.rows, r.length = df.cols.length) (hjlt : j < df.cols.length)
    (i : Nat) (c : String) :
    (df.mapColAt j f).cellAt i c =
      if df.colIdx c = some j then (df.cellAt i c).map f else df.cellAt i c := by
  have hmap : ∀ jc : Nat, ((df.mapColAt j f).colCellsAt jc)[i]? =
      df.rows[i]?.map
        (fun r => (r.set j (f (r.getD j Value.missing))).getD jc Value.missing) := by
    intro jc
    simp only [DataFrame.mapColAt, DataFrame.colCellsAt, List.map_map, List.getElem?_map]
    rfl
  have hbase : ∀ jc : Nat, (df.colCellsAt jc)[i]? =
      df.rows[i]?.map (fun r => r.getD jc Value.missing) := by
    intro jc
    simp [DataFrame.colCellsAt, List.getElem?_map]
  unfold DataFrame.cellAt DataFrame.colCells?
  have hidx : (df.mapColAt j f).colIdx c = df.colIdx c := rfl
  rw [hidx]
  cases hcj : df.colIdx c with
  | none => rfl
  | some jc =>
    simp only [Option.map_some', Option.some_bind, hmap, hbase]
    cases hri : df.rows[i]? with
    | none => simp [apply_ite]
    | some r =>
      have hrmem : r ∈ df.rows := by
        obtain ⟨hlt, hget⟩ := List.getElem?_eq_some_iff.mp hri
        exact hget ▸ List.getElem_mem hlt
      have hrlen : r.length = df.cols.length := hwf r hrmem
      by_cases hjj : jc = j
      · subst hjj
        rw [if_pos rfl]
        simp only [Option.map_some', Option.some.injEq]
        rw [List.getD_eq_getElem?_getD, List.getElem?_set_self (by omega)]
        simp
      · rw [if_neg (by simp [hjj])]
        simp only [Option.map_some', Option.some.injEq]
        rw [List.getD_eq_getElem?_getD, List.getElem?_set_ne (fun h => hjj h.symm),
          ← List.getD_eq_getElem?_getD]

/-- C8: on a well-formed table with an existing column and non-empty string
arguments, `replace_value` with a case-insensitively `"nan"`/`"none"` old
value succeeds and rewrites exactly the cells of that column holding a
missing value to the new string — every other cell, and every other column,
is untouched — and `replace_value` with an old value matching no cell of the
column succeeds as a no-op, returning the table unchanged. -/
theorem replace_value_missing_token_and_noop (df : DataFrame)
    (column_name old_value new_value : String) (j : Nat)
    (hwf : df.WF) (hj : df.colIdx column_name = some j)
    (hc : column_name ≠ "") (ho : old_value ≠ "") (hn : new_value ≠ "") :
    ((old_value.toLower = "nan" ∨ old_value.toLower = "none") →
      (replace_value df column_name old_value new_value).2 = none ∧
      (replace_value df column_name old_value new_value).1.cols = df.cols ∧
      ∀ i c, (replace_value df column_name old_value new_value).1.cellAt i c =
        if df.colIdx c = some j ∧ df.cellAt i c = some Value.missing
        then some (Value.str new_value) else df.cellAt i c) ∧
    ((old_value.toLower ≠ "nan" ∧ old_value.toLower ≠ "none") →
      (∀ v ∈ df.colCellsAt j, v ≠ Value.str old_value) →
      replace_value df column_name old_value new_value = (df, none)) := by
  have hargs : (column_name = "" || old_value = "" || new_value = "") = false := by
    simp [hc, ho, hn]
  constructor
  · intro hspecial
    have hsp : (old_value.toLower = "nan" || old_value.toLower = "none") = true := by
      rcases hspecial with h | h <;> simp [h]
    have hred : replace_value df column_name old_value new_value =
        (df.mapColAt j (fun v => if v.isna then .str new_value else v), none) := by
      simp [replace_value, hargs, hj, hsp]
    refine ⟨by rw [hred], by rw [hred]; rfl, ?_⟩
    intro i c
    rw [hred]
    rw [DataFrame.cellAt_mapColAt df j _ hwf.1 (df.colIdx_lt hj) i c]
    by_cases hcc : df.colIdx c = some j
    · rw [if_pos hcc]
      cases hcell : df.cellAt i c with
      | none => simp [hcell]
      | some v =>
        cases v with
        | missing => simp [hcc, Value.isna, hcell]
        | str s => simp [hcc, Value.isna, hcell]
        | num q => simp [hcc, Value.isna, hcell]
        | undef => simp [hcc, Value.isna, hcell]
    · rw [if_neg hcc, if_neg (by simp [hcc])]
  · intro hnotsp hnomatch
    have hsp : (old_value.toLower = "nan" || old_value.toLower = "none") = false := by
      simp [hnotsp.1, hnotsp.2]
    have hany : (df.colCellsAt j).any (fun v => decide (v = .str old_value)) = false := by
      simp only [List.any_eq_false, decide_eq_true_eq]
      intro v hv
      exact hnomatch v hv
    simp [replace_value, hargs, hj, hsp, hany]

/-- Witness for C8 on a concrete table: `old_value = "NaN"` rewrites the
missing cell and leaves the literal string cell alone, and a non-matching
`old_value = "zzz"` is a no-op success. -/
theorem replace_value_missing_token_and_noop_witness :
    (("NaN".toLower = "nan" ∨ "NaN".toLower = "none") →
      (replace_value ⟨["s"], [[Value.missing], [Value.str "nan"]]⟩ "s" "NaN" "fixed").2 = none ∧
      (replace_value ⟨["s"], [[Value.missing], [Value.str "nan"]]⟩ "s" "NaN" "fixed").1.cols =
        (DataFrame.mk ["s"] [[Value.missing], [Value.str "nan"]]).cols ∧
      ∀ i c, (replace_value ⟨["s"], [[Value.missing], [Value.str "nan"]]⟩ "s" "NaN" "fixed").1.cellAt i c =
        if (DataFrame.mk ["s"] [[Value.missing], [Value.str "nan"]]).colIdx c = some 0 ∧
            (DataFrame.mk ["s"] [[Value.missing], [Value.str "nan"]]).cellAt i c = some Value.missing
        then some (Value.str "fixed")
        else (DataFrame.mk ["s"] [[Value.missing], [Value.str "nan"]]).cellAt i c) ∧
    (("NaN".toLower ≠ "nan" ∧ "NaN".toLower ≠ "none") →
      (∀ v ∈ (DataFrame.mk ["s"] [[Value.missing], [Value.str "nan"]]).colCellsAt 0,
        v ≠ Value.str "NaN") →
      replace_value ⟨["s"], [[Value.missing], [Value.str "nan"]]⟩ "s" "NaN" "fixed" =
        (⟨["s"], [[Value.missing], [Value.str "nan"]]⟩, none)) :=
  replace_value_missing_token_and_noop ⟨["s"], [[Value.missing], [Value.str "nan"]]⟩
    "s" "NaN" "fixed" 0 ⟨by decide, by decide⟩ rfl (by decide) (by decide) (by decide)

/-- The rational carried by a numeric cell (`0` for non-numeric cells; only
used under an all-numeric hypothesis). -/
def numToQ : Value → ℚ
  | .num q => q
  | _ => 0

/-- The skipna row fold on an all-numeric row is plain summation. -/
theorem rowSumGo_all_num (vs : List Value) : ∀ acc : ℚ,
    (∀ v ∈ vs, ∃ q, v = Value.num q) →
    rowSumGo acc vs = .ok (.num (acc + (vs.map numToQ).sum)) := by
  induction vs with
  | nil =>
    intro acc _
    simp [rowSumGo]
  | cons v t ih =>
    intro acc h
    obtain ⟨q, rfl⟩ := h v (by simp)
    simp only [rowSumGo]
    rw [ih (acc + q) (fun x hx => h x (by simp [hx]))]
    simp only [List.map_cons, List.sum_cons, numToQ]
    rw [add_assoc]

/-- `exceptMap` with an everywhere-successful function is a plain map. -/
theorem exceptMap_eq_ok_map {α β ε : Type} (f : α → Except ε β) (g : α → β) (l : List α)
    (h : ∀ a ∈ l, f a = .ok (g a)) : exceptMap f l = .ok (l.map g) := by
  induction l with
  | nil => rfl
  | cons a t ih =>
    simp [exceptMap, h a (by simp), ih (fun x hx => h x (by simp [hx]))]

/-- Assigning a fresh column appends it on the right: reading it back gives
exactly the assigned values. -/
theorem DataFrame.colCells?_setCol_fresh (df : DataFrame) (name : String)
    (vs : List Value)
    (hwf : ∀ r ∈ df.rows, r.length = df.cols.length)
    (hnot : df.colIdx name = none)
    (hlen : vs.length = df.rows.length) :
    (df.setCol name vs).colCells? name = some vs := by
  have hfind : (df.cols ++ [name]).findIdx? (fun c => decide (c = name)) =
      some df.cols.length := by
    rw [List.findIdx?_append]
    have h1 : df.cols.findIdx? (fun c => decide (c = name)) = none := hnot
    rw [h1]
    simp [List.findIdx?_cons]
  have hcells : ∀ (rows : List (List Value)) (ws : List Value),
      (∀ r ∈ rows, r.length = df.cols.length) → ws.length = rows.length →
      (List.zipWith (fun r v => r ++ [v]) rows ws).map
        (fun r => r.getD df.cols.length Value.missing) = ws := by
    intro rows
    induction rows with
    | nil =>
      intro ws _ hl
      rw [List.length_nil, List.length_eq_zero] at hl
      simp [hl]
    | cons r t ih =>
      intro ws hw hl
      cases ws with
      | nil => simp at hl
      | cons v tv =>
        simp only [List.zipWith_cons_cons, List.map_cons]
        rw [ih tv (fun x hx => hw x (by simp [hx])) (by simpa using hl)]
        have hr : r.length = df.cols.length := hw r (by simp)
        rw [List.getD_eq_getElem?_getD, List.getElem?_append_right (by omega)]
        simp [hr]
  have hset : df.setCol name vs =
      { cols := df.cols ++ [name], rows := List.zipWith (fun r v => r ++ [v]) df.rows vs } := by
    simp [DataFrame.setCol, hnot]
  rw [hset]
  simp only [DataFrame.colCells?, DataFrame.colIdx, DataFrame.colCellsAt, hfind,
    Option.map_some', Option.some.injEq]
  exact hcells df.rows vs hwf hlen

/-- C9: over tables whose listed source columns all exist:
`"difference"` with a source list of length other than two fails with
`InvalidOperation` and leaves the table unchanged; `"sum"` over numeric
source columns succeeds and adds a fresh column holding the row-wise sums
(e.g. A=[1,2], B=[3,4] yields [4,6]); and an `operation_type` outside
sum/difference/product/quotient/mean fails with `InvalidOperation` whose
detail names the unsupported value. -/
theorem add_derived_column_contract :
    (∀ (df : DataFrame) (column_name : String) (source_columns : List String),
      column_name ≠ "" → (∀ s ∈ source_columns, df.hasCol s = true) →
      source_columns.length ≠ 2 →
      ∃ d, add_new_column_from_math_operation df column_name "difference" source_columns =
        (df, some (.dataProcessing "add new column from math operation" d))) ∧
    (∀ (df : DataFrame) (column_name : String) (source_columns : List String),
      df.WF → column_name ≠ "" → df.colIdx column_name = none →
      2 ≤ source_columns.length → (∀ s ∈ source_columns, df.hasCol s = true) →
      (∀ r ∈ df.rows, ∀ s ∈ source_columns,
        ∃ q, r.getD ((df.colIdx s).getD 0) Value.missing = Value.num q) →
      ∃ post, add_new_column_from_math_operation df column_name "sum" source_columns =
          (post, none) ∧
        post.colCells? column_name = some (df.rows.map (fun r =>
          Value.num (((selectCells df r source_columns).map numToQ).sum))) ∧
        post.cols = df.cols ++ [column_name]) ∧
    (∀ (df : DataFrame) (column_name operation_type : String) (source_columns : List String),
      column_name ≠ "" → 2 ≤ source_columns.length →
      (∀ s ∈ source_columns, df.hasCol s = true) →
      operation_type ∉ ["sum", "difference", "product", "quotient", "mean"] →
      add_new_column_from_math_operation df column_name operation_type source_columns =
        (df, some (.dataProcessing "add new column from math operation"
          ("Unsupported operation_type " ++ pyq ++ operation_type ++ pyq ++
            ". Please use " ++ pyq ++ "sum" ++ pyq ++ ", " ++ pyq ++ "difference" ++ pyq ++
            ", " ++ pyq ++ "product" ++ pyq ++ ", " ++ pyq ++ "quotient" ++ pyq ++
            ", or " ++ pyq ++ "mean" ++ pyq ++ ".")))) := by
  refine ⟨?_, ?_, ?_⟩
  · intro df column_name source_columns hc hsrc hlen2
    by_cases hlt : source_columns.length < 2
    · refine ⟨"`source_columns` must be a list with at least two columns.", ?_⟩
      simp [add_new_column_from_math_operation, hc, hlt]
    · have hfind : source_columns.find? (fun c => !df.hasCol c) = none := by
        rw [List.find?_eq_none]
        intro x hx
        simp [hsrc x hx]
      refine ⟨pyq ++ "difference" ++ pyq ++ " operation requires exactly two source columns.",
        ?_⟩
      simp [add_new_column_from_math_operation, hc, hlt, hfind, hlen2]
  · intro df column_name source_columns hwf hc hfresh hlen2 hsrc hnum
    have hfind : source_columns.find? (fun c => !df.hasCol c) = none := by
      rw [List.find?_eq_none]
      intro x hx
      simp [hsrc x hx]
    have hlt : ¬ source_columns.length < 2 := by omega
    have hrow : ∀ r ∈ df.rows,
        rowSum (selectCells df r source_columns) =
          .ok (.num (((selectCells df r source_columns).map numToQ).sum)) := by
      intro r hr
      have hvs : ∀ v ∈ selectCells df r source_columns, ∃ q, v = Value.num q := by
        intro v hv
        simp only [selectCells, List.mem_map] at hv
        obtain ⟨s, hs, rfl⟩ := hv
        exact hnum r hr s hs
      have := rowSumGo_all_num (selectCells df r source_columns) 0 hvs
      simpa [rowSum] using this
    have hmap := exceptMap_eq_ok_map
      (fun r => rowSum (selectCells df r source_columns))
      (fun r => Value.num (((selectCells df r source_columns).map numToQ).sum))
      df.rows hrow
    refine ⟨df.setCol column_name (df.rows.map (fun r =>
      Value.num (((selectCells df r source_columns).map numToQ).sum))), ?_, ?_, ?_⟩
    · simp [add_new_column_from_math_operation, hc, hlt, hfind, hmap]
    · exact df.colCells?_setCol_fresh column_name _ hwf.1 hfresh (by simp)
    · simp [DataFrame.setCol, hfresh]
  · intro df column_name operation_type source_columns hc hlen2 hsrc hop
    have hfind : source_columns.find? (fun c => !df.hasCol c) = none := by
      rw [List.find?_eq_none]
      intro x hx
      simp [hsrc x hx]
    have hlt : ¬ source_columns.length < 2 := by omega
    have h1 : operation_type ≠ "sum" := fun h => hop (by simp [h])
    have h2 : operation_type ≠ "difference" := fun h => hop (by simp [h])
    have h3 : operation_type ≠ "product" := fun h => hop (by simp [h])
    have h4 : operation_type ≠ "quotient" := fun h => hop (by simp [h])
    have h5 : operation_type ≠ "mean" := fun h => hop (by simp [h])
    simp [add_new_column_from_math_operation, hc, hlt, hfind, h1, h2, h3, h4, h5]

/-- Witness for C9 on concrete tables: a three-column difference fails with
`InvalidOperation`; summing A=[1,2] and B=[3,4] appends C=[4,6]; the
unsupported operation `"median"` fails with a detail naming it. -/
theorem add_derived_column_contract_witness :
    (∃ d, add_new_column_from_math_operation ⟨["A", "B", "C"], [[.num 1, .num 3, .num 0]]⟩
        "D" "difference" ["A", "B", "C"] =
      (⟨["A", "B", "C"], [[.num 1, .num 3, .num 0]]⟩,
        some (.dataProcessing "add new column from math operation" d))) ∧
    (∃ post, add_new_column_from_math_operation
        ⟨["A", "B"], [[.num 1, .num 3], [.num 2, .num 4]]⟩ "C" "sum" ["A", "B"] =
          (post, none) ∧
      post.colCells? "C" = some [Value.num 4, Value.num 6] ∧
      post.cols = ["A", "B", "C"]) ∧
    (add_new_column_from_math_operation ⟨["A", "B"], [[.num 1, .num 3]]⟩
        "D" "median" ["A", "B"] =
      (⟨["A", "B"], [[.num 1, .num 3]]⟩,
        some (.dataProcessing "add new column from math operation"
          ("Unsupported operation_type " ++ pyq ++ "median" ++ pyq ++
            ". Please use " ++ pyq ++ "sum" ++ pyq ++ ", " ++ pyq ++ "difference" ++ pyq ++
            ", " ++ pyq ++ "product" ++ pyq ++ ", " ++ pyq ++ "quotient" ++ pyq ++
            ", or " ++ pyq ++ "mean" ++ pyq ++ ".")))) := by
  obtain ⟨p1, p2, p3⟩ := add_derived_column_contract
  refine ⟨?_, ?_, ?_⟩
  · exact p1 ⟨["A", "B", "C"], [[.num 1, .num 3, .num 0]]⟩ "D" ["A", "B", "C"]
      (by decide) (by decide) (by decide)
  · obtain ⟨post, h1, h2, h3⟩ := p2 ⟨["A", "B"], [[.num 1, .num 3], [.num 2, .num 4]]⟩
      "C" ["A", "B"] ⟨by decide, by decide⟩ (by decide) rfl (by decide) (by decide)
      (by
        intro r hr s hs
        fin_cases hr <;> fin_cases hs <;> exact ⟨_, rfl⟩)
    refine ⟨post, h1, ?_, h3⟩
    rw [h2]
    simp [selectCells, numToQ, DataFrame.colIdx, List.findIdx?_cons]
    norm_num
  · exact p3 ⟨["A", "B"], [[.num 1, .num 3]]⟩ "D" "median" ["A", "B"]
      (by decide) (by decide) (by decide) (by decide)

/-- Number of mapping rows whose key cell at position `mj` equals `key`. -/
def countMatches (mapping : DataFrame) (mj : Nat) (key : Value) : Nat :=
  (mapping.rows.filter (fun mr => decide (mr.getD mj Value.missing = key))).length

/-- C1: with a non-empty mapping table bound and both key columns present,
the enrichment operation is a left join: it succeeds; the result keeps every
primary column plus the new one; the number of result rows is the sum over
primary rows of `max 1 (number of key matches)` — one row per matching pair,
with fan-out for duplicated mapping keys; a primary row with no matching key
survives with a missing value in the new column; each matching
(primary row, mapping row) pair contributes its joined row; and on success
the orchestrator replaces its primary-table reference with the joined table
while reporting success. -/
theorem merge_left_join_contract (p m : DataFrame) (pcol mcol newcol : String)
    (pj mj : Nat) (hpj : p.colIdx pcol = some pj) (hmj : m.colIdx mcol = some mj)
    (hm : m.isEmptyB = false) :
    ∃ d, merge_dataframes p m pcol mcol newcol = .ok d ∧
      d.cols = p.cols ++ [newcol] ∧
      d.rows.length = (p.rows.map (fun r =>
        max 1 (countMatches m mj (r.getD pj Value.missing)))).sum ∧
      (∀ r ∈ p.rows, countMatches m mj (r.getD pj Value.missing) = 0 →
        r ++ [Value.missing] ∈ d.rows) ∧
      (∀ r ∈ p.rows, ∀ mr ∈ m.rows,
        mr.getD mj Value.missing = r.getD pj Value.missing →
        r ++ [mr.getD (mappingValueIdx m mj) Value.missing] ∈ d.rows) ∧
      runTool 0 ⟨p, some m⟩ (.mergeDataframes pcol mcol newcol) =
        (⟨d, some m⟩, respSuccess ("Successfully merged data and added new column " ++
          pyq ++ newcol ++ pyq ++ ".") none) := by
  refine ⟨{ cols := p.cols ++ [newcol]
            rows := p.rows.flatMap (fun r =>
              let key := r.getD pj Value.missing
              let ms := m.rows.filter (fun mr => decide (mr.getD mj Value.missing = key))
              if ms.isEmpty then [r ++ [Value.missing]]
              else ms.map (fun mr => r ++ [mr.getD (mappingValueIdx m mj) Value.missing])) },
    ?_, rfl, ?_, ?_, ?_, ?_⟩
  · simp [merge_dataframes, hpj, hmj]
  · rw [List.length_flatMap]
    congr 1
    apply List.map_congr_left
    intro r hr
    show (if (m.rows.filter (fun mr =>
          decide (mr.getD mj Value.missing = r.getD pj Value.missing))).isEmpty
        then [r ++ [Value.missing]]
        else (m.rows.filter (fun mr =>
          decide (mr.getD mj Value.missing = r.getD pj Value.missing))).map
            (fun mr => r ++ [mr.getD (mappingValueIdx m mj) Value.missing])).length =
      max 1 (countMatches m mj (r.getD pj Value.missing))
    rw [countMatches]
    cases hms : m.rows.filter
        (fun mr => decide (mr.getD mj Value.missing = r.getD pj Value.missing)) with
    | nil => simp
    | cons a t => simp
  · intro r hr hcount
    have hms : m.rows.filter
        (fun mr => decide (mr.getD mj Value.missing = r.getD pj Value.missing)) = [] :=
      List.length_eq_zero.mp hcount
    rw [List.mem_flatMap]
    refine ⟨r, hr, ?_⟩
    show r ++ [Value.missing] ∈
      (if (m.rows.filter (fun mr =>
          decide (mr.getD mj Value.missing = r.getD pj Value.missing))).isEmpty
        then [r ++ [Value.missing]]
        else (m.rows.filter (fun mr =>
          decide (mr.getD mj Value.missing = r.getD pj Value.missing))).map
            (fun mr => r ++ [mr.getD (mappingValueIdx m mj) Value.missing]))
    rw [hms]
    simp
  · intro r hr mr hmr hkey
    have hmem : mr ∈ m.rows.filter
        (fun mr => decide (mr.getD mj Value.missing = r.getD pj Value.missing)) :=
      List.mem_filter.mpr ⟨hmr, by
        simp only [decide_eq_true_eq]
        exact hkey⟩
    have hne : (m.rows.filter
        (fun mr => decide (mr.getD mj Value.missing = r.getD pj Value.missing))).isEmpty
          = false := by
      cases hfs : m.rows.filter
          (fun mr => decide (mr.getD mj Value.missing = r.getD pj Value.missing)) with
      | nil =>
        rw [hfs] at hmem
        simp at hmem
      | cons a t => rfl
    rw [List.mem_flatMap]
    refine ⟨r, hr, ?_⟩
    simp only [hne, if_false]
    exact List.mem_map.mpr ⟨mr, hmem, rfl⟩
  · have hmerge : merge_dataframes p m pcol mcol newcol = .ok
        { cols := p.cols ++ [newcol]
          rows := p.rows.flatMap (fun r =>
            let key := r.getD pj Value.missing
            let ms := m.rows.filter (fun mr => decide (mr.getD mj Value.missing = key))
            if ms.isEmpty then [r ++ [Value.missing]]
            else ms.map (fun mr => r ++ [mr.getD (mappingValueIdx m mj) Value.missing])) } := by
      simp [merge_dataframes, hpj, hmj]
    simp [runTool, hm, hmerge]

/-- Witness for C1 on the spec's fan-out example: primary keys 1,2,3 against
a mapping table with two rows for key 1 yield four result rows — two joined
rows for the duplicated key, and the unmatched keys kept with a missing
value — and the orchestrator state holds the joined table. -/
theorem merge_left_join_contract_witness :
    ∃ d, merge_dataframes ⟨["k"], [[.num 1], [.num 2], [.num 3]]⟩
        ⟨["k2", "v"], [[.num 1, .str "a"], [.num 1, .str "b"]]⟩ "k" "k2" "nm" = .ok d ∧
      d.cols = ["k", "nm"] ∧
      d.rows.length = 4 ∧
      [Value.num 1, Value.str "a"] ∈ d.rows ∧
      [Value.num 1, Value.str "b"] ∈ d.rows ∧
      [Value.num 2, Value.missing] ∈ d.rows ∧
      [Value.num 3, Value.missing] ∈ d.rows ∧
      runTool 0 ⟨⟨["k"], [[.num 1], [.num 2], [.num 3]]⟩,
          some ⟨["k2", "v"], [[.num 1, .str "a"], [.num 1, .str "b"]]⟩⟩
          (.mergeDataframes "k" "k2" "nm") =
        (⟨d, some ⟨["k2", "v"], [[.num 1, .str "a"], [.num 1, .str "b"]]⟩⟩,
          respSuccess ("Successfully merged data and added new column " ++ pyq ++
            "nm" ++ pyq ++ ".") none) := by
  obtain ⟨d, h1, h2, h3, h4, h5, h6⟩ := merge_left_join_contract
    ⟨["k"], [[.num 1], [.num 2], [.num 3]]⟩
    ⟨["k2", "v"], [[.num 1, .str "a"], [.num 1, .str "b"]]⟩ "k" "k2" "nm" 0 0 rfl rfl rfl
  refine ⟨d, h1, by rw [h2]; rfl, by rw [h3]; decide, ?_, ?_, ?_, ?_, h6⟩
  · exact h5 [Value.num 1] (by simp) [Value.num 1, Value.str "a"] (by simp) (by decide)
  · exact h5 [Value.num 1] (by simp) [Value.num 1, Value.str "b"] (by simp) (by decide)
  · exact h4 [Value.num 2] (by simp) (by decide)
  · exact h4 [Value.num 3] (by simp) (by decide)
